import Mathlib

/-!
# r2epub — verification of the EPUB assembly pipeline

A shallow embedding of the core of the r2epub converter (ReSpec-generated
W3C technical reports → EPUB 3.2), together with proofs about its behavior.

The embedding covers:

* the URL helper functions of the external `url` collaborator library, as
  used by the source (`url.parse` protocol/host/port/path extraction,
  fragment stripping, `url.resolve`);
* the sanity checks of the fetch module (`check_Web_url`, `fetch_resource`,
  `fetch_type`), with the network itself as an oracle parameter;
* a model of `Promise.all`: all requests of a phase are launched together
  and the results are recombined by the index of the originating request,
  with an explicit completion schedule so that order (in)dependence can be
  stated and proved;
* the resource collector and main pipeline of `process.ts`
  (`get_extra_resources`, the W3C-logo step, manifest population);
* the CSS/logo resolver of the css module (templates, the `specStatus`
  mapping table, `extract`);
* the OPF `PackageWrapper` (state-passing embedding of its methods);
* the collection layer's `generate_book_data` (editor union, maximal date).

State-carrying JS objects are embedded as explicit state passing;
asynchronous calls are embedded as oracle functions `String → Except String β`
together with an explicit completion schedule.
-/

/-! ## Model of the `url` collaborator library

The source uses the node `url` package (`urlHandler.parse`,
`urlHandler.format`, `urlHandler.resolve`).  The functions below model the
exact observations the source makes on parsed URLs: `protocol`, `host`,
`port`, `path`, and fragment stripping (`parsed.hash = null` followed by
`format`).  They operate on the character list of the string. -/

/-- Characters allowed in the scheme part of a URL by the legacy node
parser's protocol pattern. -/
def proto_char (c : Char) : Bool :=
  c.isAlphanum || c = '.' || c = '+' || c = '-'

/-- `url.parse(s).protocol`: the lower-cased scheme including the trailing
colon, or `none` for scheme-less (relative) references. -/
def url_protocol (s : String) : Option String :=
  let cs := s.toList
  let pre := cs.takeWhile proto_char
  if pre.length ≠ 0 ∧ cs.get? pre.length = some ':' then
    some (String.mk (pre.map Char.toLower) ++ ":")
  else
    none

/-- Fragment stripping: `parsed.hash = null; url.format(parsed)` — i.e. the
part of the string before the first `#`. -/
def strip_fragment (s : String) : String :=
  String.mk (s.toList.takeWhile (· ≠ '#'))

/-- The authority (`user@host:port`) component: present only when the
scheme is followed by `//` (the default parser does not treat a leading
`//` of a scheme-less string as an authority). -/
def url_authority (s : String) : Option (List Char) :=
  match url_protocol s with
  | none => none
  | some p =>
    let rest := s.toList.drop p.length
    if rest.take 2 = ['/', '/'] then
      some ((rest.drop 2).takeWhile (fun c => c ≠ '/' && c ≠ '?' && c ≠ '#'))
    else
      none

/-- `url.parse(s).host` (without the port), lower-cased. -/
def url_host (s : String) : Option String :=
  match url_authority s with
  | none => none
  | some auth =>
    let hostport := if auth.contains '@' then (auth.reverse.takeWhile (· ≠ '@')).reverse else auth
    let host := hostport.takeWhile (· ≠ ':')
    if host = [] then none else some (String.mk (host.map Char.toLower))

/-- `url.parse(s).port`: the digits after the last `:` of the host
component, as a string. -/
def url_port (s : String) : Option String :=
  match url_authority s with
  | none => none
  | some auth =>
    let hostport := if auth.contains '@' then (auth.reverse.takeWhile (· ≠ '@')).reverse else auth
    if hostport.contains ':' then
      some (String.mk ((hostport.reverse.takeWhile (· ≠ ':')).reverse))
    else
      none

/-- `url.parse(s).path` (pathname plus search): for a scheme-less reference
this is everything before the fragment, `none` when that is empty. -/
def url_path (s : String) : Option String :=
  let base := strip_fragment s
  match url_protocol s with
  | none => if base = "" then none else some base
  | some p =>
    let rest := base.toList.drop p.length
    if rest.take 2 = ['/', '/'] then
      let after := (rest.drop 2).dropWhile (fun c => c ≠ '/' && c ≠ '?')
      if after = [] then none else some (String.mk after)
    else
      if rest = [] then none else some (String.mk rest)

/-- The directory of a URL: everything up to and including the last `/`. -/
def url_directory (base : String) : String :=
  String.mk (((strip_fragment base).toList.reverse.dropWhile (· ≠ '/')).reverse)

/-- The origin (`scheme//host`) of a URL. -/
def url_origin (base : String) : String :=
  match url_protocol base, url_host base with
  | some p, some h => p ++ "//" ++ h
  | _, _ => ""

/-- `url.resolve(base, rel)`: a reference with a scheme is returned as is,
a root-relative reference is resolved against the origin, and any other
reference against the directory of the base URL. -/
def url_resolve (base rel : String) : String :=
  if (url_protocol rel).isSome then rel
  else if rel.toList.take 1 = ['/'] then url_origin base ++ rel
  else url_directory base ++ rel

/-! ## Model of the `underscore` collaborator functions -/

/-- `_.uniq` / `_.unique`: duplicate removal keeping the first occurrence
of each element, preserving order. -/
def uniq {α : Type} [DecidableEq α] (l : List α) : List α :=
  l.foldl (fun acc x => if x ∈ acc then acc else acc ++ [x]) []

/-- `_.zip` of three equal-length lists. -/
def zip3 {α β γ : Type} : List α → List β → List γ → List (α × β × γ)
  | a :: as, b :: bs, c :: cs => (a, b, c) :: zip3 as bs cs
  | _, _, _ => []

/-- JavaScript's `String.prototype.replace` with a string pattern: only the
first occurrence of the pattern is replaced (list version). -/
def js_replace_list (pat rep : List Char) : List Char → List Char
  | [] => []
  | c :: cs =>
    if pat.isPrefixOf (c :: cs) then rep ++ (c :: cs).drop pat.length
    else c :: js_replace_list pat rep cs

/-- JavaScript's `s.replace(pat, rep)` for a non-empty string pattern. -/
def js_replace (s pat rep : String) : String :=
  String.mk (js_replace_list pat.toList rep.toList s.toList)

/-- JavaScript's `s.toUpperCase()` (ASCII, as used on status strings). -/
def js_toUpperCase (s : String) : String :=
  String.mk (s.toList.map Char.toUpper)

/-- Substring occurrence test (used to state that a generated stylesheet
contains given CSS rules). -/
def str_occurs_list (pat : List Char) : List Char → Bool
  | [] => pat.isEmpty
  | c :: cs => pat.isPrefixOf (c :: cs) || str_occurs_list pat cs

/-- Whether `pat` occurs as a substring of `s`. -/
def str_occurs (pat s : String) : Bool :=
  str_occurs_list pat.toList s.toList

/-! ## The fetch module

The fetch module performs the sanity checks of `check_Web_url` and wraps the
actual network accesses.  The network itself is an external collaborator: it
is embedded as an oracle `net : String → Except String FetchResponse`.  The
functions return, besides the result, the list of addresses for which a
network request was actually issued. -/

/-- Media types referring to textual content (`text_content` in the
source). -/
def text_content_media_types : List String :=
  ["application/json", "application/ld+json", "text/html", "application/xhtml+xml",
   "text/css", "image/svg+xml", "text/javascript", "text/ecmascript"]

/-- Media type for XHTML. -/
def xhtml_media_type : String := "application/xhtml+xml"

/-- The observable part of an HTTP response, as used by the fetch module:
the `ok` flag, status code and text, the `content-type` header (possibly
absent), and the body.  Body streams and body text are both embedded as the
byte content `body_text`. -/
structure FetchResponse where
  ok : Bool
  status : Nat
  statusText : String
  content_type : Option String
  body_text : String
deriving Repr, DecidableEq

/-- `Number()` applied to a port string: `some n` for a digit string,
`none` for `NaN`. -/
def js_port_number (s : String) : Option Nat :=
  let cs := s.toList
  if cs ≠ [] ∧ cs.all (·.isDigit) then
    some (cs.foldl (fun n c => n * 10 + (c.toNat - 48)) 0)
  else
    none

/-- Basic sanity check on a URL (`check_Web_url`): the protocol must be
http(s), the URL must pass the external `valid-url` check (embedded as the
`isWebUri` oracle), and an explicit port must be `> 1024`.  In the source an
unsafe port raises inside a `try` block whose `catch` re-raises as an
"Invalid port number" error, so both port problems surface as that error. -/
def check_Web_url (isWebUri : String → Option String) (address : String) :
    Except String String :=
  match url_protocol address with
  | none => .error ("\x22" ++ address ++ "\x22: Invalid URL: no protocol")
  | some protocol =>
    if protocol = "http:" ∨ protocol = "https:" then
      match isWebUri address with
      | none => .error ("\x22" ++ address ++ "\x22: the URL isn\x27t valid")
      | some retval =>
        match url_port address with
        | none => .ok retval
        | some port =>
          match js_port_number port with
          | some portNumber =>
            if portNumber ≤ 1024 then
              .error ("\x22" ++ address ++ "\x22: Invalid port number used in URL (" ++ port ++ ")")
            else .ok retval
          | none => .ok retval
    else .error ("\x22" ++ address ++ "\x22: URL is not dereferencable")

/-- `fetch_resource`: check the URL, then fetch it; textual content (or any
content under `force_text`) is returned as text, other content as a stream
(both embedded as `body_text`).  The second component is the list of
addresses actually passed to the network. -/
def fetch_resource (isWebUri : String → Option String)
    (net : String → Except String FetchResponse)
    (resource_url : String) (force_text : Bool) :
    Except String String × List String :=
  match check_Web_url isWebUri resource_url with
  | .error err => (.error err, [])
  | .ok final_url =>
    match net final_url with
    | .error err => (.error ("Problem accessing " ++ resource_url ++ ": " ++ err), [final_url])
    | .ok response =>
      if response.ok then
        match response.content_type with
        | some response_type =>
          if response_type ≠ "" then
            if response_type ∈ text_content_media_types then (.ok response.body_text, [final_url])
            else if force_text then (.ok response.body_text, [final_url])
            else (.ok response.body_text, [final_url])
          else (.ok response.body_text, [final_url])
        | none => (.ok response.body_text, [final_url])
      else
        (.error ("HTTP response " ++ toString response.status ++ ": " ++ response.statusText
           ++ " on " ++ resource_url), [final_url])

/-- `fetch_type`: check the URL, then fetch it and return the value of the
`content-type` header (which may be absent). -/
def fetch_type (isWebUri : String → Option String)
    (net : String → Except String FetchResponse)
    (resource_url : String) :
    Except String (Option String) × List String :=
  match check_Web_url isWebUri resource_url with
  | .error err => (.error err, [])
  | .ok final_url =>
    match net final_url with
    | .error err => (.error ("Problem accessing " ++ resource_url ++ ": " ++ err), [final_url])
    | .ok response =>
      if response.ok then (.ok response.content_type, [final_url])
      else
        (.error ("HTTP response " ++ toString response.status ++ ": " ++ response.statusText
           ++ " on " ++ resource_url), [final_url])

/-! ## `Promise.all`

A phase launches all of its requests together (`reqs.map (...)`) and then
synchronizes on all of them.  Pending operations complete in an arbitrary
order described by a *schedule*: the list of request indices in completion
order (a permutation of `0, …, n-1`).  Each completion carries the index of
its originating request; `Promise.all` rejects with the first rejection in
completion order, and otherwise recombines the results by request index. -/

/-- The completions, in schedule order, each tagged with the index of its
originating request. -/
def completions {α β : Type} (oracle : α → Except String β) (reqs : List α)
    (sched : List Nat) : List (Nat × Except String β) :=
  sched.filterMap (fun i => (reqs.get? i).map (fun r => (i, oracle r)))

/-- The first rejection, in completion order. -/
def firstRejection {β : Type} (cs : List (Nat × Except String β)) : Option String :=
  cs.findSome? (fun p => match p.2 with | .error e => some e | .ok _ => none)

/-- The value settled for request index `i`. -/
def settled {β : Type} (cs : List (Nat × Except String β)) (i : Nat) : Option β :=
  cs.findSome? (fun p => if p.1 = i then p.2.toOption else none)

/-- `Promise.all`: reject with the first rejection in completion order, or
deliver the results recombined by request index. -/
def promiseAll {α β : Type} (oracle : α → Except String β) (reqs : List α)
    (sched : List Nat) : Except String (List β) :=
  let cs := completions oracle reqs sched
  match firstRejection cs with
  | some e => .error e
  | none => .ok ((List.range reqs.length).filterMap (settled cs))

/-- The requests actually issued under a schedule (one oracle call per
completion). -/
def issued {α : Type} (reqs : List α) (sched : List Nat) : List α :=
  sched.filterMap (reqs.get? ·)

/-! ## `process.ts`: the resource data model and the resource collector -/

/-- Interface for the resources that, eventually, should be added to the
EPUB file (`ResourceRef`). -/
structure ResourceRef where
  /-- The URL to be used within the EPUB; relative to the top of the file. -/
  relative_url : String
  /-- Media type of the resource. -/
  media_type : String
  /-- URL of the resource in case it must be fetched. -/
  absolute_url : Option String := none
  /-- Content of the resource in case it is generated by this program. -/
  text_content : Option String := none
  /-- The item must have a fixed id, rather than a generated one. -/
  id : Option String := none
  /-- Extra properties to be added to the manifest entry. -/
  properties : Option String := none
deriving Repr, DecidableEq

/-- The relevant observations on the parsed document tree: for each of the
four query/attribute pairs of `resource_references`, the list of attribute
values of the matched elements in document order (`none` when the attribute
is missing), plus the presence of an `img[alt="W3C"]` element. -/
structure Doc where
  /-- `src` attributes of `img` elements. -/
  img_src : List (Option String)
  /-- `href` attributes of `a` elements. -/
  a_href : List (Option String)
  /-- `href` attributes of `link[rel="stylesheet"]` elements. -/
  link_stylesheet_href : List (Option String)
  /-- `data` attributes of `object` elements. -/
  object_data : List (Option String)
  /-- Whether the document has an `img[alt="W3C"]` element. -/
  img_alt_w3c : Bool
deriving Repr, DecidableEq

/-- Arrays of query/attribute pairs that may refer to a resource to be
collected (`resource_references`): image elements, `a` elements, links to
stylesheets, and `object` elements. -/
def resource_references : List (String × String) :=
  [("img", "src"), ("a", "href"), ("link[rel=\x22stylesheet\x22]", "href"), ("object", "data")]

/-- The attribute values produced by the queries of `resource_references`,
in that order. -/
def Doc.query_results (doc : Doc) : List (List (Option String)) :=
  [doc.img_src, doc.a_href, doc.link_stylesheet_href, doc.object_data]

/-- The filter of the collector chain: keep values that are non-empty,
non-null, scheme-less (`parsed.protocol === null`) and have a non-null
path (which discards fragment-only references). -/
def keep_ref : Option String → Bool
  | none => false
  | some r => r ≠ "" && (url_protocol r).isNone && (url_path r).isSome

/-- The map of the collector chain: remove the fragment part, if any. -/
def strip_ref : Option String → String
  | none => ""
  | some r => strip_fragment r

/-- The collector chain of `get_extra_resources` before deduplication:
extract the possible references, flatten, remove absolute URLs and
fragment-only references, and strip fragments. -/
def target_urls (doc : Doc) : List String :=
  ((doc.query_results.flatten).filter keep_ref).map strip_ref

/-- The duplicate-free list of relative URLs collected from the document. -/
def relative_urls (doc : Doc) : List String :=
  uniq (target_urls doc)

/-- The absolute URLs obtained by resolving the collected relative URLs
against the document URL. -/
def absolute_urls (doc : Doc) (document_url : String) : List String :=
  (relative_urls doc).map (url_resolve document_url)

/-- `get_extra_resources`: collect the duplicate-free relative URLs, resolve
them against the document URL, query all media types in one `Promise.all`
(the media-type lookup is the `fetch_type` collaborator, embedded as
`oracle`), and zip the three lists into `ResourceRef`s. -/
def get_extra_resources (doc : Doc) (document_url : String)
    (oracle : String → Except String String) (sched : List Nat) :
    Except String (List ResourceRef) :=
  let rel := relative_urls doc
  let abs := absolute_urls doc document_url
  match promiseAll oracle abs sched with
  | .error e => .error e
  | .ok media_types =>
    .ok ((zip3 rel media_types abs).map (fun entry =>
      { relative_url := entry.1, media_type := entry.2.1, absolute_url := some entry.2.2 }))

/-! ## The css module: status-driven CSS/logo resolution

The CSS templates below are the template literals of the source, with
`extra_css` spliced in where the source interpolates it. -/

/-- Book specific css additions (page breaks, turning off the built-in TOC). -/
def extra_css : String :=
  "\nbody \x7b\n    padding: 0 0 0 0 !important;\n\x7d\n\nh2 \x7b\n" ++
  "    page-break-before: always;\n    page-break-inside: avoid;\n" ++
  "    page-break-after: avoid;\n\x7d\n\ndiv.head h2 \x7b\n" ++
  "    page-break-before: auto;\n    page-break-inside: avoid;\n" ++
  "    page-break-after: avoid;\n\x7d\n\nfigure \x7b\n" ++
  "    page-break-inside: avoid;\n\x7d\n\nh3, h4, h5 \x7b\n" ++
  "    page-break-after: avoid;\n\x7d\n\ndl dt \x7b\n    page-break-after: avoid;\n" ++
  "\x7d\n\ndl dd \x7b\n    page-break-before: avoid;\n\x7d\n\n" ++
  "div.example, div.note, pre.idl, .warning, table.parameters, table.exceptions \x7b\n" ++
  "    page-break-inside: avoid;\n\x7d\n\np \x7b\n    orphans: 4;\n    widows: 2;\n" ++
  "\x7d\n\n#toc-nav, #toc-toggle-inline \x7b\n    display:none;\n\x7d\n\n" ++
  "#back-to-top, .toc-toggle \x7b\n    display: none;\n\x7d\n\n" ++
  ".figure, figure \x7b\n    margin-left: auto;\n    margin-right: auto;\n\x7d\n\n" ++
  "nav#toc \x7b\n    display: none\n\x7d\n"

/-- The basic background css template. -/
def background_template : String :=
  "\nbody \x7b\n    background-image: url(logos/%%%LOGO%%%);\n\x7d\n" ++
  extra_css ++
  "\n"

/-- CSS template for \x27undefined\x27 documents; it also has a watermark. -/
def undefined_template : String :=
  "\nbody \x7b\n    background-image: url(logos/%%%LOGO%%%);\n" ++
  "    background-color: transparent;\n\x7d\n\nhtml \x7b\n" ++
  "    background: white url(logos/UD-watermark.png);\n\x7d\n" ++
  extra_css ++
  "\n"

/-- Template used for BG documents. -/
def bg_template : String :=
  "\n@media screen and (min-width: 28em) \x7b\n    body \x7b\n" ++
  "        background-image: url(\x27logos/%%%LOGO%%%\x27);\n" ++
  "        background-size: auto !important;\n        padding-left: 150px;\n" ++
  "    \x7d\n\x7d\n\n@media screen and (min-width: 78em) \x7b\n" ++
  "    body:not(.toc-inline) #toc \x7b\n        padding-top: 150px;\n" ++
  "        background-attachment: local !important;\n    \x7d;\n\x7d\n\n" ++
  "@media screen \x7b\n    body.toc-sidebar #toc \x7b\n" ++
  "        padding-top: 150px;\n        background-attachment: local !important;\n" ++
  "    \x7d;\n\x7d\n" ++
  extra_css ++
  "\n"

/-- Template used for CG draft documents; uses the common watermark. -/
def cg_draft_template : String :=
  "\nbody \x7b\n    background-image: url(\x27logos/%%%LOGO%%%\x27);\n" ++
  "    background-size: auto !important;\n\x7d\n" ++
  "@media screen and (min-width: 28em) \x7b\n    body \x7b\n" ++
  "        padding-left: 160px;\n    \x7d\n\x7d\n\n" ++
  "@media screen and (min-width: 78em) \x7b\n    body:not(.toc-inline) #toc \x7b\n" ++
  "        padding-top: 160px;\n        background-attachment: local !important;\n" ++
  "    \x7d;\n\x7d\n\n@media screen \x7b\n    body.toc-sidebar #toc \x7b\n" ++
  "        padding-top: 160px;\n        background-attachment: local !important;\n" ++
  "    \x7d;\n\x7d\n\nbody \x7b\n    background-color: transparent;\n\x7d\n\n" ++
  "html \x7b\n    background: white url(logos/UD-watermark.png);\n" ++
  "    background-repeat: repeat-x;\n\x7d\n" ++
  extra_css ++
  "\n"

/-- Template used for CG final documents. -/
def cg_final_template : String :=
  "\nbody \x7b\n    background-image: url(\x27logos/%%%LOGO%%%\x27);\n" ++
  "    background-size: auto !important;\n\x7d\n\n" ++
  "@media screen and (min-width: 28em) \x7b\n    body \x7b\n" ++
  "        padding-left: 160px;\n    \x7d\n\x7d\n\n" ++
  "@media screen and (min-width: 78em) \x7b\n    body:not(.toc-inline) #toc \x7b\n" ++
  "        padding-top: 160px;\n        background-attachment: local !important;\n" ++
  "    \x7d;\n\x7d\n\n@media screen \x7b\n    body.toc-sidebar #toc \x7b\n" ++
  "        padding-top: 160px;\n        background-attachment: local !important;\n" ++
  "    \x7d;\n\x7d\n" ++
  extra_css ++
  "\n"

/-- `specStatus` values with a common, standard behavior: distinct logos
based on value, no watermark, simple background template
(`specStatus_simple`). -/
def specStatus_simple : List String :=
  ["ED", "WD", "CR", "PR", "PER", "REC", "RSCND", "OBSL", "SPSD"]

/-- Interface for special cases (`specStatus_css_mappings`): whether there
is a watermark, the logo file name, the logo media type (if missing,
`image/svg` is used), and the special template (if missing,
`background_template` is used). -/
structure specStatus_css_mappings where
  watermark : Bool
  logo_name : String
  logo_media_type : Option String := none
  special_template : Option String := none
deriving Repr, DecidableEq

/-- Mapping from `specStatus` to its relevant description
(`specStatus_css`). -/
def specStatus_css : List (String × specStatus_css_mappings) :=
  [("UNOFFICIAL",
    { watermark := true, logo_name := "UD.png", logo_media_type := some "image/png",
      special_template := some undefined_template }),
   ("FPWD", { watermark := false, logo_name := "WD.svg" }),
   ("LC", { watermark := false, logo_name := "WD.svg" }),
   ("FPWD-NOTE", { watermark := false, logo_name := "WG-Note.svg" }),
   ("WG-NOTE", { watermark := false, logo_name := "WG-Note.svg" }),
   ("BG-DRAFT",
    { watermark := false, logo_name := "back-bg-draft.png", logo_media_type := some "image/png",
      special_template := some bg_template }),
   ("BG-FINAL",
    { watermark := false, logo_name := "back-bg-final.png", logo_media_type := some "image/png",
      special_template := some bg_template }),
   ("CG-DRAFT",
    { watermark := true, logo_name := "back-cg-draft.png", logo_media_type := some "image/png",
      special_template := some cg_draft_template }),
   ("CG-FINAL",
    { watermark := false, logo_name := "back-cg-final.png", logo_media_type := some "image/png",
      special_template := some cg_final_template })]

/-- Property access `specStatus_css[key]` on the mapping object. -/
def specStatus_css_get (key : String) : Option specStatus_css_mappings :=
  (specStatus_css.find? (fun kv => kv.1 = key)).map (fun kv => kv.2)

/-- The `css_extras` computation of `extract`: look the status up in
`specStatus_css` after `toUpperCase()`; when that is undefined and the
*verbatim* status string is in `specStatus_simple`, synthesize a standard
entry with no watermark and the `<status>.svg` logo. -/
def lookup_css_extras (specStatus : String) : Option specStatus_css_mappings :=
  match specStatus_css_get (js_toUpperCase specStatus) with
  | some css_extras => some css_extras
  | none =>
    if specStatus ∈ specStatus_simple then
      some { watermark := false, logo_name := specStatus ++ ".svg" }
    else
      none

/-- The predicate of `css_link_element`: a stylesheet link element that has
an `href` attribute whose parsed host is `www.w3.org`. -/
def is_w3c_css_link : Option String → Bool
  | none => false
  | some href => url_host href == some "www.w3.org"

/-- The fixed resource reference of the base W3C stylesheet. -/
def base_css_ref : ResourceRef :=
  { relative_url := "StyleSheets/TR/2016/base.css", media_type := "text/css",
    absolute_url := some "https://www.w3.org/StyleSheets/TR/2016/base.css" }

/-- The watermark image resource registered when the mapping entry requires
a watermark.  Note the `$` in the absolute URL, taken verbatim from the
source. -/
def watermark_ref : ResourceRef :=
  { relative_url := "StyleSheets/TR/2016/logos/UD-watermark.png", media_type := "image/png",
    absolute_url := some "https://www.w3.org/StyleSheets/TR/2016/logos/$UD-watermark.png" }

/-- `extract` of the css module: find the single W3C stylesheet link; if
present, rewrite it to the base stylesheet and register that stylesheet;
then, if the status yields a mapping entry, register the logo (and, with a
watermark, the watermark image), instantiate the CSS template with the logo
name, register the result as a generated `epub.css` resource, and append a
new stylesheet link for it to the document.  Returns the mutated document
and the list of additional resources. -/
def extract (doc : Doc) (specStatus : String) : Doc × List ResourceRef :=
  match doc.link_stylesheet_href.findIdx? is_w3c_css_link with
  | none => (doc, [])
  | some i =>
    let doc1 : Doc :=
      { doc with link_stylesheet_href :=
          doc.link_stylesheet_href.set i (some "StyleSheets/TR/2016/base.css") }
    match lookup_css_extras specStatus with
    | none => (doc1, [base_css_ref])
    | some css_extras =>
      let template := js_replace (css_extras.special_template.getD background_template)
        "%%%LOGO%%%" css_extras.logo_name
      let logo_ref : ResourceRef :=
        { relative_url := "StyleSheets/TR/2016/logos/" ++ css_extras.logo_name,
          media_type := css_extras.logo_media_type.getD "image/svg",
          absolute_url := some ("https://www.w3.org/StyleSheets/TR/2016/logos/" ++ css_extras.logo_name) }
      let epub_css_ref : ResourceRef :=
        { relative_url := "StyleSheets/TR/2016/epub.css", media_type := "text/css",
          text_content := some template }
      let doc2 : Doc :=
        { doc1 with link_stylesheet_href :=
            doc1.link_stylesheet_href ++ [some "StyleSheets/TR/2016/epub.css"] }
      (doc2, [base_css_ref] ++ [logo_ref] ++ (if css_extras.watermark then [watermark_ref] else [])
        ++ [epub_css_ref])

/-! ## Cover and navigation builders -/

/-- Modelled from the spec: the Cover Builder module (`cover.ts`,
`create_cover_page`) is not part of the source snapshot.  Per the spec it
"produces one text-content ResourceRef: a minimal XHTML page carrying the
title, editor list, and publisher mark, with a fixed relative path"
(`cover.xhtml` in the container layout). -/
def create_cover_page (title : String) : List ResourceRef :=
  [{ relative_url := "cover.xhtml", media_type := xhtml_media_type,
     text_content := some ("<html><head><title>" ++ title ++ "</title></head><body><h1>"
       ++ title ++ "</h1><p>World Wide Web Consortium</p></body></html>"),
     id := some "start" }]

/-- Modelled from the spec: the Navigation Builder module (`nav.ts`,
`create_nav_file`) is not part of the source snapshot.  Per the spec it
"produces one text-content ResourceRef: an XHTML navigation document"
(`nav.xhtml` in the container layout). -/
def create_nav_file (title : String) : List ResourceRef :=
  [{ relative_url := "nav.xhtml", media_type := xhtml_media_type,
     text_content := some ("<html><head><title>" ++ title
       ++ "</title></head><body><nav epub:type=\x22toc\x22><ol></ol></nav></body></html>"),
     properties := some "nav" }]

/-! ## The OPF `PackageWrapper`

The JS class instance is embedded as a record; every method becomes a
function from the record (and the method arguments) to the new record, and
`serialize` to the pair of the (unchanged) record and the produced XML.
The XML production itself is done by the external `xmlbuilder2` collaborator
(`convert`), a deterministic, pure function of the package object; it is
embedded below as a concrete XML renderer of the record. -/

/-- A manifest item: the `@href`, `@media-type`, `@id` and optional
`@properties` attributes (an undefined `@properties` is deleted by
`add_manifest_item`, embedded here as `none`). -/
structure ManifestItem where
  href : String
  media_type : String
  id : String
  properties : Option String := none
deriving Repr, DecidableEq

/-- A `meta` element of the metadata: its optional `@property`, `@refines`
and `@scheme` attributes and its textual content. -/
structure MetaEntry where
  property : Option String := none
  refines : Option String := none
  scheme : Option String := none
  content : String := ""
deriving Repr, DecidableEq

/-- The state of a `PackageWrapper` instance: the creator-id counter `id`
and the `thePackage` object (identifier, title, creators, meta entries,
manifest items, spine item references).  The fixed namespace/rights/
language attributes are constants of the serializer. -/
structure PackageWrapper where
  id : Nat
  identifier : String
  title : String
  creators : List (String × String)
  meta : List MetaEntry
  manifest_items : List ManifestItem
  spine_itemrefs : List String
deriving Repr, DecidableEq

/-- The constructor `new PackageWrapper(identifier, title)`. -/
def PackageWrapper.new (identifier title : String) : PackageWrapper :=
  { id := 0, identifier := identifier, title := title,
    creators := [],
    meta := [{ property := some "title-type", refines := some "#title", content := "main" },
             { property := some "cc:attributionURL", content := "https://www.w3.org" }],
    manifest_items := [],
    spine_itemrefs := ["start", "main"] }

/-- `add_manifest_item`: append one manifest entry. -/
def PackageWrapper.add_manifest_item (p : PackageWrapper) (item : ManifestItem) :
    PackageWrapper :=
  { p with manifest_items := p.manifest_items ++ [item] }

/-- `add_creators`: append each name as a creator with a sequential
generated id `creator_id_<n>` and a role-refinement meta entry marking it
as editor. -/
def PackageWrapper.add_creators (p : PackageWrapper) (creators : List String) :
    PackageWrapper :=
  creators.foldl (fun acc creator =>
    { acc with
      creators := acc.creators ++ [("creator_id_" ++ toString acc.id, creator)],
      meta := acc.meta ++ [{ refines := some ("#creator_id_" ++ toString acc.id),
                             property := some "role", scheme := some "marc:relators",
                             content := "edt" }],
      id := acc.id + 1 }) p

/-- `add_dates`: stamp both `dcterms:date` and `dcterms:modified` with the
same value. -/
def PackageWrapper.add_dates (p : PackageWrapper) (date : String) : PackageWrapper :=
  { p with meta := p.meta
      ++ [{ property := some "dcterms:date", content := date ++ "T00:00:00Z" },
          { property := some "dcterms:modified", content := date ++ "T00:00:00Z" }] }

/-- Render an optional XML attribute. -/
def xml_attr (name : String) : Option String → String
  | none => ""
  | some v => " " ++ name ++ "=\x22" ++ v ++ "\x22"

/-- Render a `meta` element. -/
def render_meta (m : MetaEntry) : String :=
  "<meta" ++ xml_attr "property" m.property ++ xml_attr "refines" m.refines
    ++ xml_attr "scheme" m.scheme ++ ">" ++ m.content ++ "</meta>"

/-- Render a manifest `item` element. -/
def render_manifest_item (it : ManifestItem) : String :=
  "<item" ++ xml_attr "href" (some it.href) ++ xml_attr "media-type" (some it.media_type)
    ++ xml_attr "id" (some it.id) ++ xml_attr "properties" it.properties ++ "/>"

/-- Render a creator element together with nothing else (role refinements
live in the meta list). -/
def render_creator (c : String × String) : String :=
  "<dc:creator id=\x22" ++ c.1 ++ "\x22>" ++ c.2 ++ "</dc:creator>"

/-- The `convert` collaborator of `xmlbuilder2`: a deterministic, pure
rendering of the package object as package-document XML. -/
def render_package (p : PackageWrapper) : String :=
  "<?xml version=\x221.0\x22 encoding=\x22utf-8\x22?>"
    ++ "<package xmlns=\x22http://www.idpf.org/2007/opf\x22 unique-identifier=\x22pub-id\x22 version=\x223.0\x22 xml:lang=\x22en-us\x22>"
    ++ "<metadata><dc:identifier id=\x22pub-id\x22>" ++ p.identifier ++ "</dc:identifier>"
    ++ "<dc:title id=\x22title\x22>" ++ p.title ++ "</dc:title>"
    ++ "<dc:language>en-us</dc:language>"
    ++ String.join (p.meta.map render_meta)
    ++ "<dc:rights>https://www.w3.org/Consortium/Legal/2015/doc-license</dc:rights>"
    ++ "<dc:publisher>World Wide Web Consortium</dc:publisher>"
    ++ String.join (p.creators.map render_creator)
    ++ "</metadata><manifest>"
    ++ String.join (p.manifest_items.map render_manifest_item)
    ++ "</manifest><spine>"
    ++ String.join (p.spine_itemrefs.map (fun r => "<itemref idref=\x22" ++ r ++ "\x22/>"))
    ++ "</spine></package>"

/-- `serialize()`: produce the package-document XML.  The method reads the
state and mutates nothing, so the state-passing embedding returns the
unchanged state together with the rendered XML. -/
def PackageWrapper.serialize (p : PackageWrapper) : PackageWrapper × String :=
  (p, render_package p)

/-! ## `process.ts`: the main pipeline (steps 3–8) and the container -/

/-- Step 4 of `process`: if the document has an `img[alt="W3C"]` element,
rewrite its `src` to the relative logo path and push the logo resource. -/
def add_w3c_logo (doc : Doc) (res : List ResourceRef) : List ResourceRef :=
  if doc.img_alt_w3c then
    res ++ [{ relative_url := "StyleSheets/TR/2016/logos/W3C.svg",
              media_type := "image/svg+xml",
              absolute_url := some "https://www.w3.org/StyleSheets/TR/2016/logos/W3C" }]
  else res

/-- Steps 3–7 of `process`: collect the extra resources, add the W3C logo
reference, append the css module's resources, and prepend the cover and
navigation resources.  Returns the mutated document together with the final
accumulated resource list. -/
def process_resources (doc : Doc) (document_url specStatus title : String)
    (oracle : String → Except String String) (sched : List Nat) :
    Except String (Doc × List ResourceRef) :=
  match get_extra_resources doc document_url oracle sched with
  | .error e => .error e
  | .ok collected =>
    let res4 := add_w3c_logo doc collected
    let css_out := extract doc specStatus
    let res5 := res4 ++ css_out.2
    let res6 := create_cover_page title ++ res5
    let res7 := create_nav_file title ++ res6
    .ok (css_out.1, res7)

/-- Step 8 of `process`: populate the package with one manifest item per
resource with a non-empty (truthy) `relative_url`, generating `res_id<n>`
ids from a counter starting at 1 for resources without a fixed id. -/
def populate_manifest (pkg : PackageWrapper) (resources : List ResourceRef) :
    PackageWrapper :=
  (resources.foldl (fun (st : PackageWrapper × Nat) resource =>
    if resource.relative_url ≠ "" then
      (st.1.add_manifest_item
        { href := resource.relative_url, media_type := resource.media_type,
          id := resource.id.getD ("res_id" ++ toString st.2),
          properties := resource.properties }, st.2 + 1)
    else st) (pkg, 1)).1

/-- Modelled from the spec: the OCF (container writer) module (`ocf.ts`) is
not part of the source snapshot.  Per the spec the class adds the fixed
`mimetype` entry first and the fixed `META-INF/container.xml` entry
(pointing at `package.opf`) second, and `append` adds further entries in
call order.  The archive is embedded as the ordered list of
(path, content) entries. -/
structure OCF where
  name : String
  entries : List (String × String)
deriving Repr, DecidableEq

/-- The fixed `META-INF/container.xml` content, pointing at the package
document. -/
def container_xml : String :=
  "<?xml version=\x221.0\x22?><container version=\x221.0\x22 xmlns=\x22urn:oasis:names:tc:opendocument:xmlns:container\x22>"
    ++ "<rootfiles><rootfile full-path=\x22package.opf\x22 media-type=\x22application/oebps-package+xml\x22/></rootfiles></container>"

/-- `new OCF(name)`: the container with its fixed first two entries. -/
def OCF.new (name : String) : OCF :=
  { name := name,
    entries := [("mimetype", "application/epub+zip"), ("META-INF/container.xml", container_xml)] }

/-- `OCF.append(content, path)`. -/
def OCF.append (b : OCF) (content file_name : String) : OCF :=
  { b with entries := b.entries ++ [(file_name, content)] }

/-- The absolute URLs of the resources that must be fetched at
container-write time. -/
def fetch_urls (resources : List ResourceRef) : List String :=
  (resources.filter (fun r => r.absolute_url.isSome)).map (fun r => r.absolute_url.getD "")

/-- `generate_epub` of `process.ts`: append the serialized package and the
main content, then the text-content resources, then fetch all remaining
resources in one `Promise.all` (the only place resource bytes are fetched;
the `fetch_resource` collaborator is embedded as `fetch_oracle`) and append
them.  The main content string stands for `create_xhtml.convert_dom`,
whose module is not part of the source snapshot.  A failed fetch fails the
whole call: no container is returned. -/
def generate_epub (package : PackageWrapper) (overview_xhtml : String)
    (resources : List ResourceRef) (epub_file_name : String)
    (fetch_oracle : String → Except String String) (sched : List Nat) :
    Except String OCF :=
  let the_book := OCF.new epub_file_name
  let the_book := the_book.append (package.serialize).2 "package.opf"
  let the_book := the_book.append overview_xhtml "Overview.xhtml"
  let the_book := (resources.filter (fun r => r.text_content.isSome)).foldl
    (fun b r => b.append (r.text_content.getD "") r.relative_url) the_book
  let to_be_fetched := resources.filter (fun r => r.absolute_url.isSome)
  let file_names := to_be_fetched.map (fun r => r.relative_url)
  let urls := to_be_fetched.map (fun r => r.absolute_url.getD "")
  match promiseAll fetch_oracle urls sched with
  | .error e => .error e
  | .ok contents =>
    .ok ((contents.zip file_names).foldl (fun b arg => b.append arg.1 arg.2) the_book)

/-- The resource list of a successful pipeline run (and `[]` for a failed
one); lets closed statements talk about the produced resources. -/
def resources_of (e : Except String (Doc × List ResourceRef)) : List ResourceRef :=
  match e with
  | .ok p => p.2
  | .error _ => []

/-! ## The collection layer (`convert.js`): book skeleton generation

JavaScript compares strings with `<`/`>` lexicographically by code unit;
`js_string_lt` embeds that comparison (on ASCII date strings the code-unit
and code-point orders agree). -/

/-- JavaScript string `<` on character lists. -/
def js_string_lt : List Char → List Char → Bool
  | [], [] => false
  | [], _ :: _ => true
  | _ :: _, [] => false
  | a :: as, b :: bs => if a < b then true else if b < a then false else js_string_lt as bs

/-- JavaScript `a < b` on strings. -/
def js_lt (a b : String) : Bool := js_string_lt a.toList b.toList

/-- JavaScript `a > b` on strings. -/
def js_gt (a b : String) : Bool := js_lt b a

/-- The reducer `(accumulator, currentValue) => accumulator > currentValue
? accumulator : currentValue` of the date computation. -/
def js_max_step (accumulator currentValue : String) : String :=
  if js_gt accumulator currentValue then accumulator else currentValue

/-- A chapter, as the collection layer sees it: the editors and the
(maximum content) date of one completed single-document conversion. -/
structure Chapter where
  editors : List String
  date : String
deriving Repr, DecidableEq

/-- The book skeleton produced by `generate_book_data`. -/
structure Book where
  title : String
  name : String
  editors : List String
  date : String
  chapters : List Chapter
deriving Repr, DecidableEq

/-- The `reduce` computing the maximal date: JS
`dates.reduce((a, c) => a > c ? a : c)` (no initial value, so an empty
chapter list raises a `TypeError`). -/
def reduce_max_date : List String → Except String String
  | [] => .error "TypeError: Reduce of empty array with no initial value"
  | d :: rest => .ok (rest.foldl js_max_step d)

/-- `generate_book_data`: initialize every chapter (one promise per
chapter, synchronized by one `Promise.all`, results recombined by request
index), then build the book skeleton: the editors are the deduplicated
flattened union of the chapters' editors, the date is the maximal chapter
date. -/
def generate_book_data {γ : Type} (title name : String) (chapter_data : List γ)
    (init_oracle : γ → Except String Chapter) (sched : List Nat) :
    Except String Book :=
  match promiseAll init_oracle chapter_data sched with
  | .error e => .error e
  | .ok chapters =>
    match reduce_max_date (chapters.map (fun c => c.date)) with
    | .error e => .error e
    | .ok date =>
      .ok { title := title, name := name,
            editors := uniq (chapters.map (fun c => c.editors)).flatten,
            date := date, chapters := chapters }

/-- Decidable equality of `Except` results (for concrete evaluations). -/
instance {ε α : Type} [DecidableEq ε] [DecidableEq α] : DecidableEq (Except ε α) := fun x y =>
  match x, y with
  | .ok a, .ok b =>
    if h : a = b then isTrue (by rw [h]) else isFalse (fun hc => by cases hc; exact h rfl)
  | .error a, .error b =>
    if h : a = b then isTrue (by rw [h]) else isFalse (fun hc => by cases hc; exact h rfl)
  | .ok _, .error _ => isFalse (fun hc => by cases hc)
  | .error _, .ok _ => isFalse (fun hc => by cases hc)

/-! ## Verification

General lemmas about the embedded collaborators (`uniq`, `zip3`,
`Promise.all`) followed by the claim theorems. -/

theorem uniq_aux_nodup {α : Type} [DecidableEq α] (l : List α) (acc : List α) (h : acc.Nodup) :
    (l.foldl (fun acc x => if x ∈ acc then acc else acc ++ [x]) acc).Nodup := by
  induction l generalizing acc with
  | nil => simpa using h
  | cons x xs ih =>
    simp only [List.foldl_cons]
    by_cases hx : x ∈ acc
    · rw [if_pos hx]; exact ih acc h
    · rw [if_neg hx]
      refine ih _ ?_
      simp [List.nodup_append, h, hx]

/-- `_.uniq` produces a duplicate-free list. -/
theorem uniq_nodup {α : Type} [DecidableEq α] (l : List α) : (uniq l).Nodup :=
  uniq_aux_nodup l [] (by simp)

theorem zip3_map_map {α β γ : Type} (g : α → β) (h : α → γ) (l : List α) :
    zip3 l (l.map g) (l.map h) = l.map (fun x => (x, g x, h x)) := by
  induction l with
  | nil => rfl
  | cons x xs ih => simp [zip3, ih]

theorem filterMap_range_aux {β : Type} (g : Nat → Option β) (l : List β)
    (hg : ∀ i, i < l.length → g i = l.get? i) :
    ∀ m, m ≤ l.length → (List.range m).filterMap g = l.take m := by
  intro m
  induction m with
  | zero => simp
  | succ m ih =>
    intro hm
    rw [List.range_succ, List.filterMap_append, ih (Nat.le_of_succ_le hm), List.take_succ]
    have hml : m < l.length := hm
    have : List.filterMap g [m] = l[m]?.toList := by
      rw [List.filterMap_cons, List.filterMap_nil, hg m hml, List.get?_eq_getElem?]
      cases l[m]? <;> simp
    rw [this]

/-- Constructing a list from indexed lookups: if `g` agrees with the entries
of `l` on all indices, filter-mapping it over `range l.length` rebuilds
`l`. -/
theorem filterMap_range_eq {β : Type} (g : Nat → Option β) (l : List β)
    (hg : ∀ i, i < l.length → g i = l.get? i) :
    (List.range l.length).filterMap g = l := by
  simpa [List.take_length] using filterMap_range_aux g l hg l.length le_rfl

theorem completions_mem {α β : Type} {oracle : α → Except String β} {reqs : List α}
    {sched : List Nat} {p : Nat × Except String β}
    (hp : p ∈ completions oracle reqs sched) :
    ∃ r, reqs.get? p.1 = some r ∧ p.2 = oracle r := by
  simp only [completions, List.mem_filterMap] at hp
  obtain ⟨i, _, hmap⟩ := hp
  cases hr : reqs.get? i with
  | none => rw [hr] at hmap; simp at hmap
  | some r =>
    rw [hr] at hmap
    simp only [Option.map_some'] at hmap
    cases hmap
    exact ⟨r, hr, rfl⟩

theorem completions_mem_of {α β : Type} (oracle : α → Except String β) (reqs : List α)
    (sched : List Nat) (i : Nat) (r : α) (hi : i ∈ sched) (hr : reqs.get? i = some r) :
    (i, oracle r) ∈ completions oracle reqs sched := by
  simp only [completions, List.mem_filterMap]
  exact ⟨i, hi, by rw [hr]; rfl⟩

/-- When every request succeeds and the schedule is a permutation of the
request indices, `Promise.all` resolves with the results in request order —
whatever the completion order was. -/
theorem promiseAll_ok {α β : Type} (oracle : α → Except String β) (f : α → β)
    (reqs : List α) (sched : List Nat)
    (hperm : sched.Perm (List.range reqs.length))
    (hf : ∀ r ∈ reqs, oracle r = .ok (f r)) :
    promiseAll oracle reqs sched = .ok (reqs.map f) := by
  have hnorej : firstRejection (completions oracle reqs sched) = none := by
    rw [firstRejection, List.findSome?_eq_none]
    intro p hp
    obtain ⟨r, hr, hpe⟩ := completions_mem hp
    rw [hpe, hf r (List.get?_mem hr)]
  have hsettled : ∀ i, i < (reqs.map f).length →
      settled (completions oracle reqs sched) i = (reqs.map f).get? i := by
    intro i hi
    rw [List.length_map] at hi
    obtain ⟨r, hr⟩ : ∃ r, reqs.get? i = some r := by
      cases h : reqs.get? i with
      | none => exact absurd (List.get?_eq_none.1 h) (Nat.not_le.2 hi)
      | some r => exact ⟨r, rfl⟩
    have hi_sched : i ∈ sched := hperm.mem_iff.2 (List.mem_range.2 hi)
    have hin := completions_mem_of oracle reqs sched i r hi_sched hr
    have hval : (reqs.map f).get? i = some (f r) := by
      rw [List.get?_map, hr]; rfl
    rw [hval]
    cases hs : settled (completions oracle reqs sched) i with
    | none =>
      exfalso
      have hnone := (List.findSome?_eq_none.1 hs) _ hin
      rw [if_pos rfl, hf r (List.get?_mem hr)] at hnone
      simp [Except.toOption] at hnone
    | some b =>
      obtain ⟨p, hp, hpb⟩ := List.exists_of_findSome?_eq_some hs
      obtain ⟨r', hr', hpr⟩ := completions_mem hp
      by_cases hpi : p.1 = i
      · rw [if_pos hpi] at hpb
        rw [hpi] at hr'
        rw [hr] at hr'
        cases hr'
        rw [hpr, hf r (List.get?_mem hr)] at hpb
        simp [Except.toOption] at hpb
        rw [hpb]
      · rw [if_neg hpi] at hpb
        simp at hpb
  rw [promiseAll]
  simp only [hnorej]
  have hlen : reqs.length = (reqs.map f).length := (List.length_map reqs f).symm
  rw [hlen, filterMap_range_eq _ (reqs.map f) hsettled]

/-- When some request fails — and `e` is the error of every failing
request — `Promise.all` rejects with `e` under every schedule that is a
permutation of the request indices: the run fails with that error. -/
theorem promiseAll_error {α β : Type} (oracle : α → Except String β) (reqs : List α)
    (sched : List Nat) (e : String)
    (hperm : sched.Perm (List.range reqs.length))
    (hex : ∃ r ∈ reqs, oracle r = .error e)
    (hall : ∀ r ∈ reqs, oracle r = .error e ∨ ∃ b, oracle r = .ok b) :
    promiseAll oracle reqs sched = .error e := by
  obtain ⟨r, hr, herr⟩ := hex
  obtain ⟨i, hi⟩ := List.mem_iff_get?.1 hr
  have hilt : i < reqs.length := (List.get?_eq_some.1 hi).1
  have hins : i ∈ sched := hperm.mem_iff.2 (List.mem_range.2 hilt)
  have hmem := completions_mem_of oracle reqs sched i r hins hi
  cases hfr : firstRejection (completions oracle reqs sched) with
  | none =>
    exfalso
    have hnone := List.findSome?_eq_none.1 hfr _ hmem
    rw [herr] at hnone
    simp at hnone
  | some e' =>
    obtain ⟨p, hp, hpe⟩ := List.exists_of_findSome?_eq_some hfr
    obtain ⟨r', hr', hpr⟩ := completions_mem hp
    have herr' : oracle r' = .error e' := by
      rw [← hpr]
      revert hpe
      cases p.2 with
      | error a => intro h; simp at h; rw [h]
      | ok a => intro h; simp at h
    have he : e' = e := by
      rcases hall r' (List.get?_mem hr') with h | ⟨b, hb⟩
      · rw [h] at herr'; cases herr'; rfl
      · rw [hb] at herr'; cases herr'
    rw [promiseAll]
    simp only [hfr, he]

/-- Under a permutation schedule every request is issued exactly once: the
issued operations are a permutation of the request list (no operation is
retried, none is skipped). -/
theorem issued_perm {α : Type} (reqs : List α) (sched : List Nat)
    (hperm : sched.Perm (List.range reqs.length)) :
    (issued reqs sched).Perm reqs := by
  have h1 : (issued reqs sched).Perm (issued reqs (List.range reqs.length)) :=
    hperm.filterMap _
  have h2 : issued reqs (List.range reqs.length) = reqs :=
    filterMap_range_eq _ reqs (fun i _ => rfl)
  rw [h2] at h1
  exact h1

/-- Characterization of a successful collector run: one `ResourceRef` per
collected unique relative path, in collection order, each pairing the
resolved absolute URL with the media type looked up for that URL. -/
theorem get_extra_resources_ok (doc : Doc) (durl : String)
    (oracle : String → Except String String) (f : String → String) (sched : List Nat)
    (hperm : sched.Perm (List.range (absolute_urls doc durl).length))
    (hf : ∀ u ∈ absolute_urls doc durl, oracle u = .ok (f u)) :
    get_extra_resources doc durl oracle sched =
      .ok ((relative_urls doc).map (fun rel =>
        { relative_url := rel, media_type := f (url_resolve durl rel),
          absolute_url := some (url_resolve durl rel) })) := by
  rw [get_extra_resources]
  rw [promiseAll_ok oracle f _ sched hperm hf]
  have habs : absolute_urls doc durl = (relative_urls doc).map (url_resolve durl) := rfl
  rw [habs, List.map_map]
  simp only [zip3_map_map (f ∘ url_resolve durl) (url_resolve durl) (relative_urls doc),
    List.map_map]
  rfl

/-! Properties of the JavaScript string comparison: it coincides with the
lexicographic order on character lists, which Mathlib equips with a linear
order. -/

theorem js_string_lt_iff (a b : List Char) : js_string_lt a b = true ↔ a < b := by
  induction a generalizing b with
  | nil =>
    cases b with
    | nil =>
      constructor
      · intro h; simp [js_string_lt] at h
      · intro h; exact absurd h (by intro hc; cases hc)
    | cons y ys =>
      constructor
      · intro _; exact List.Lex.nil
      · intro _; rfl
  | cons x xs ih =>
    cases b with
    | nil =>
      constructor
      · intro h; simp [js_string_lt] at h
      · intro h; exact absurd h (by intro hc; cases hc)
    | cons y ys =>
      by_cases hxy : x < y
      · constructor
        · intro _; exact List.Lex.rel hxy
        · intro _; simp [js_string_lt, hxy]
      · by_cases hyx : y < x
        · constructor
          · intro h
            rw [show js_string_lt (x :: xs) (y :: ys)
                  = if x < y then true else if y < x then false else js_string_lt xs ys from rfl,
                if_neg hxy, if_pos hyx] at h
            cases h
          · intro h
            exfalso
            cases h with
            | rel h' => exact hxy h'
            | cons h' => exact absurd hyx (lt_irrefl _)
        · have hxey : x = y := le_antisymm (not_lt.1 hyx) (not_lt.1 hxy)
          subst hxey
          rw [show js_string_lt (x :: xs) (x :: ys)
                = if x < x then true else if x < x then false else js_string_lt xs ys from rfl,
              if_neg hxy, if_neg hxy]
          rw [ih ys]
          constructor
          · intro h; exact List.Lex.cons h
          · intro h
            cases h with
            | rel h' => exact absurd h' (lt_irrefl x)
            | cons h' => exact h'

theorem js_string_lt_false_iff (a b : List Char) : js_string_lt a b = false ↔ ¬ a < b := by
  rw [← js_string_lt_iff]
  cases js_string_lt a b <;> simp

theorem js_lt_irrefl (a : String) : js_lt a a = false := by
  rw [js_lt, js_string_lt_false_iff]
  exact lt_irrefl _

theorem js_not_lt_trans {a b c : String} (hab : js_lt a b = false) (hbc : js_lt b c = false) :
    js_lt a c = false := by
  rw [js_lt, js_string_lt_false_iff] at hab hbc ⊢
  rw [not_lt] at hab hbc ⊢
  exact le_trans hbc hab

theorem js_lt_trans {a b c : String} (hab : js_lt a b = true) (hbc : js_lt b c = true) :
    js_lt a c = true := by
  rw [js_lt, js_string_lt_iff] at hab hbc ⊢
  exact lt_trans hab hbc

/-- The fold of `reduce((a, c) => a > c ? a : c)` returns an element of the
list that no element of the list exceeds: the maximum under the JavaScript
string order. -/
theorem foldl_js_max (d : String) (rest : List String) :
    rest.foldl js_max_step d ∈ d :: rest ∧
      ∀ x ∈ d :: rest, js_lt (rest.foldl js_max_step d) x = false := by
  induction rest generalizing d with
  | nil =>
    refine ⟨List.mem_singleton.2 rfl, ?_⟩
    intro x hx
    rw [List.mem_singleton.1 hx]
    exact js_lt_irrefl _
  | cons c cs ih =>
    simp only [List.foldl_cons]
    obtain ⟨ihmem, ihle⟩ := ih (js_max_step d c)
    have hstep : js_max_step d c = d ∨ js_max_step d c = c := by
      rw [js_max_step]
      by_cases h : js_gt d c = true
      · exact Or.inl (if_pos h)
      · exact Or.inr (if_neg h)
    have hd : js_lt (js_max_step d c) d = false := by
      rw [js_max_step]
      by_cases h : js_gt d c = true
      · rw [if_pos h]; exact js_lt_irrefl d
      · rw [if_neg h]
        rw [js_gt] at h
        simpa using h
    have hc : js_lt (js_max_step d c) c = false := by
      rw [js_max_step]
      by_cases h : js_gt d c = true
      · rw [if_pos h]
        rw [js_gt] at h
        cases hdc : js_lt d c with
        | false => rfl
        | true =>
          exfalso
          have := js_lt_trans h hdc
          rw [js_lt_irrefl] at this
          cases this
      · rw [if_neg h]; exact js_lt_irrefl c
    have hhead := ihle _ (List.mem_cons_self _ _)
    constructor
    · rcases List.mem_cons.1 ihmem with h | h
      · rw [h]
        rcases hstep with h' | h'
        · rw [h']; exact List.mem_cons_self _ _
        · rw [h']; exact List.mem_cons_of_mem _ (List.mem_cons_self _ _)
      · exact List.mem_cons_of_mem _ (List.mem_cons_of_mem _ h)
    · intro x hx
      rcases List.mem_cons.1 hx with hxd | hx'
      · subst hxd
        exact js_not_lt_trans hhead hd
      · rcases List.mem_cons.1 hx' with hxc | hxs
        · subst hxc
          exact js_not_lt_trans hhead hc
        · exact ihle _ (List.mem_cons_of_mem _ hxs)

/-! ## Claim theorems -/

/-- C7: `serialize()` is pure and repeatable: it leaves the package model —
metadata, manifest, spine, and the internal creator-id counter — unchanged,
and two consecutive calls with no intervening mutation return identical XML
strings. -/
theorem serialize_pure_and_repeatable (p : PackageWrapper) :
    (p.serialize).1 = p ∧ (p.serialize).2 = (((p.serialize).1).serialize).2 :=
  ⟨rfl, rfl⟩

/-- C2: the Resource Collector returns exactly one `ResourceRef` per unique
relative path obtained by collecting the four query/attribute pairs,
discarding empty, fragment-only and scheme-ful values and stripping
fragments; each ref carries the absolute URL resolved against the document
URL and the media type queried for that same URL (results recombined by
request index), and the output is the same under every completion
schedule. -/
theorem collector_functional_correctness (doc : Doc) (durl : String)
    (oracle : String → Except String String) (f : String → String)
    (sched sched' : List Nat)
    (hperm : sched.Perm (List.range (absolute_urls doc durl).length))
    (hperm' : sched'.Perm (List.range (absolute_urls doc durl).length))
    (hf : ∀ u ∈ absolute_urls doc durl, oracle u = .ok (f u)) :
    get_extra_resources doc durl oracle sched =
      .ok ((uniq (((doc.query_results.flatten).filter keep_ref).map strip_ref)).map
        (fun rel => { relative_url := rel, media_type := f (url_resolve durl rel),
                      absolute_url := some (url_resolve durl rel) })) ∧
    (relative_urls doc).Nodup ∧
    get_extra_resources doc durl oracle sched = get_extra_resources doc durl oracle sched' := by
  refine ⟨get_extra_resources_ok doc durl oracle f sched hperm hf, uniq_nodup _, ?_⟩
  rw [get_extra_resources_ok doc durl oracle f sched hperm hf,
    get_extra_resources_ok doc durl oracle f sched' hperm' hf]

/-- Witness for C2 at a concrete document: two collected references (one
deduplicated from a fragment variant), with an out-of-order completion
schedule. -/
theorem collector_functional_correctness_witness :
    (([1, 0] : List Nat).Perm (List.range (absolute_urls
      (Doc.mk [some "imgs/fig.png#top"]
        [some "imgs/fig.png", some "", none, some "https://ex.org/a", some "#frag"]
        [some "style/doc.css"] [] false) "https://www.w3.org/TR/demo/").length)) ∧
    get_extra_resources
      (Doc.mk [some "imgs/fig.png#top"]
        [some "imgs/fig.png", some "", none, some "https://ex.org/a", some "#frag"]
        [some "style/doc.css"] [] false)
      "https://www.w3.org/TR/demo/" (fun u => .ok (u ++ "/type")) [1, 0] =
      .ok [{ relative_url := "imgs/fig.png",
             media_type := "https://www.w3.org/TR/demo/imgs/fig.png/type",
             absolute_url := some "https://www.w3.org/TR/demo/imgs/fig.png" },
           { relative_url := "style/doc.css",
             media_type := "https://www.w3.org/TR/demo/style/doc.css/type",
             absolute_url := some "https://www.w3.org/TR/demo/style/doc.css" }] := by
  constructor
  · decide
  · have h := (collector_functional_correctness
      (Doc.mk [some "imgs/fig.png#top"]
        [some "imgs/fig.png", some "", none, some "https://ex.org/a", some "#frag"]
        [some "style/doc.css"] [] false)
      "https://www.w3.org/TR/demo/" (fun u => .ok (u ++ "/type")) (fun u => u ++ "/type")
      [1, 0] [0, 1] (by decide) (by decide) (fun u _ => rfl)).1
    rw [h]
    decide

/-- C1 (counterexample): resource discovery deduplicates only its own
output.  For a document whose `img[alt="W3C"]` element carries the relative
`src` `StyleSheets/TR/2016/logos/W3C.svg`, the collector collects that path
and the W3C-logo step then appends a second `ResourceRef` with the same
`relative_url`, so the accumulated list has two refs sharing a relative_url
and the final manifest two items sharing an href. -/
theorem duplicate_relative_url_counterexample :
    ¬ (((resources_of (process_resources
          (Doc.mk [some "StyleSheets/TR/2016/logos/W3C.svg"] [] [] [] true)
          "https://www.w3.org/TR/example/" "REC" "Example"
          (fun _ => .ok "image/svg+xml") [0])).map (fun r => r.relative_url)).Nodup) ∧
    ¬ (((populate_manifest (PackageWrapper.new "https://www.w3.org/TR/example/" "Example")
          (resources_of (process_resources
            (Doc.mk [some "StyleSheets/TR/2016/logos/W3C.svg"] [] [] [] true)
            "https://www.w3.org/TR/example/" "REC" "Example"
            (fun _ => .ok "image/svg+xml") [0]))).manifest_items.map
        (fun it => it.href)).Nodup) := by
  decide

/-- C1 (amended): within the Resource Collector's own output no two
`ResourceRef`s share a `relative_url` — deduplication happens there and
only there; the steps that append resources afterwards perform no
cross-phase deduplication. -/
theorem collector_output_nodup (doc : Doc) (durl : String)
    (oracle : String → Except String String) (f : String → String) (sched : List Nat)
    (hperm : sched.Perm (List.range (absolute_urls doc durl).length))
    (hf : ∀ u ∈ absolute_urls doc durl, oracle u = .ok (f u)) :
    ∃ res, get_extra_resources doc durl oracle sched = .ok res ∧
      (res.map (fun r => r.relative_url)).Nodup := by
  refine ⟨_, get_extra_resources_ok doc durl oracle f sched hperm hf, ?_⟩
  rw [List.map_map]
  have hcomp : ((fun r : ResourceRef => r.relative_url) ∘
      (fun rel => ({ relative_url := rel, media_type := f (url_resolve durl rel),
                     absolute_url := some (url_resolve durl rel) } : ResourceRef)))
      = fun rel => rel := rfl
  rw [hcomp, List.map_id']
  exact uniq_nodup _

/-- Witness for the amended C1 at a concrete document. -/
theorem collector_output_nodup_witness :
    (([0] : List Nat).Perm (List.range (absolute_urls
      (Doc.mk [some "StyleSheets/TR/2016/logos/W3C.svg"] [] [] [] true)
      "https://www.w3.org/TR/example/").length)) ∧
    (∃ res, get_extra_resources
        (Doc.mk [some "StyleSheets/TR/2016/logos/W3C.svg"] [] [] [] true)
        "https://www.w3.org/TR/example/" (fun _ => .ok "image/svg+xml") [0] = .ok res ∧
      (res.map (fun r => r.relative_url)).Nodup) :=
  ⟨by decide,
   collector_output_nodup
     (Doc.mk [some "StyleSheets/TR/2016/logos/W3C.svg"] [] [] [] true)
     "https://www.w3.org/TR/example/" _ (fun _ => "image/svg+xml") [0]
     (by decide) (fun u _ => rfl)⟩

/-- C3 (counterexample): the claim's case-insensitivity fails.  The
case-normalized form of `"rec"` is in the regular status set, yet the
lookup finds no entry — the regular-set fallback tests the *verbatim*
status string — so differently-cased spellings of the same status yield
different results. -/
theorem status_lookup_case_counterexample :
    js_toUpperCase "rec" ∈ specStatus_simple ∧
    lookup_css_extras "rec" = none ∧
    lookup_css_extras "rec" ≠ lookup_css_extras "REC" := by
  decide

/-- C3 (amended): the explicit-table lookup is case-normalized — any status
whose uppercased form is a table key resolves to that entry — while the
regular-set fallback applies only to the verbatim status string, for which
it synthesizes an entry with no watermark and the `<status>.svg` logo. -/
theorem status_lookup (s : String) :
    (∀ e, specStatus_css_get (js_toUpperCase s) = some e → lookup_css_extras s = some e) ∧
    (specStatus_css_get (js_toUpperCase s) = none → s ∈ specStatus_simple →
      lookup_css_extras s = some { watermark := false, logo_name := s ++ ".svg" }) := by
  constructor
  · intro e he
    simp only [lookup_css_extras, he]
  · intro hn hs
    simp only [lookup_css_extras, hn, if_pos hs]

set_option maxRecDepth 8000 in
/-- Witness for the amended C3: a lower-cased table key resolves through
case normalization, and a verbatim regular status synthesizes its standard
entry. -/
theorem status_lookup_witness :
    (specStatus_css_get (js_toUpperCase "unofficial") =
        some { watermark := true, logo_name := "UD.png", logo_media_type := some "image/png",
               special_template := some undefined_template } ∧
      lookup_css_extras "unofficial" =
        some { watermark := true, logo_name := "UD.png", logo_media_type := some "image/png",
               special_template := some undefined_template }) ∧
    (specStatus_css_get (js_toUpperCase "REC") = none ∧ "REC" ∈ specStatus_simple ∧
      lookup_css_extras "REC" = some { watermark := false, logo_name := "REC.svg" }) := by
  refine ⟨⟨by decide, (status_lookup "unofficial").1 _ (by decide)⟩,
    by decide, by decide, ?_⟩
  have h := (status_lookup "REC").2 (by decide) (by decide)
  rw [h]
  decide

/-- C4: for a document with a W3C stylesheet link and a status unknown to
both the explicit table and the regular set, `extract` returns only the
base stylesheet `ResourceRef` — no logo, no watermark, no generated
`epub.css` — rewrites the link in place without appending any extra
stylesheet link, and raises no error. -/
theorem unknown_status_degrades (doc : Doc) (s : String) (i : Nat)
    (hlink : doc.link_stylesheet_href.findIdx? is_w3c_css_link = some i)
    (hunknown : lookup_css_extras s = none) :
    extract doc s =
      ({ doc with link_stylesheet_href :=
           doc.link_stylesheet_href.set i (some "StyleSheets/TR/2016/base.css") },
       [base_css_ref]) := by
  simp only [extract, hlink, hunknown]

set_option maxRecDepth 8000 in
/-- Witness for C4: status `"FOO"` on a document with the W3C stylesheet
link. -/
theorem unknown_status_degrades_witness :
    ((Doc.mk [] [] [some "https://www.w3.org/StyleSheets/TR/2016/W3C-FOO"] [] false
      ).link_stylesheet_href.findIdx? is_w3c_css_link = some 0) ∧
    lookup_css_extras "FOO" = none ∧
    extract (Doc.mk [] [] [some "https://www.w3.org/StyleSheets/TR/2016/W3C-FOO"] [] false)
        "FOO" =
      (Doc.mk [] [] [some "StyleSheets/TR/2016/base.css"] [] false, [base_css_ref]) := by
  refine ⟨by decide, by decide, ?_⟩
  have h := unknown_status_degrades
    (Doc.mk [] [] [some "https://www.w3.org/StyleSheets/TR/2016/W3C-FOO"] [] false)
    "FOO" 0 (by decide) (by decide)
  rw [h]
  decide


set_option maxHeartbeats 1000000 in
/-- C5: for a document with a W3C stylesheet link and status `"CG-DRAFT"`,
the resolver's output includes the watermark image (at
`StyleSheets/TR/2016/logos/UD-watermark.png`), an `image/png` logo, and a
generated text-content CSS resource instantiating the CG-draft template —
which contains the CG-specific `padding-left: 160px` rule. -/
theorem cg_draft_resources (doc : Doc) (i : Nat)
    (hlink : doc.link_stylesheet_href.findIdx? is_w3c_css_link = some i) :
    watermark_ref ∈ (extract doc "CG-DRAFT").2 ∧
    ({ relative_url := "StyleSheets/TR/2016/logos/back-cg-draft.png",
       media_type := "image/png",
       absolute_url := some "https://www.w3.org/StyleSheets/TR/2016/logos/back-cg-draft.png" }
       : ResourceRef) ∈ (extract doc "CG-DRAFT").2 ∧
    ({ relative_url := "StyleSheets/TR/2016/epub.css", media_type := "text/css",
       text_content := some (js_replace cg_draft_template "%%%LOGO%%%" "back-cg-draft.png") }
       : ResourceRef) ∈ (extract doc "CG-DRAFT").2 ∧
    str_occurs "padding-left: 160px"
      (js_replace cg_draft_template "%%%LOGO%%%" "back-cg-draft.png") = true := by
  have hlook : lookup_css_extras "CG-DRAFT" =
      some { watermark := true, logo_name := "back-cg-draft.png",
             logo_media_type := some "image/png",
             special_template := some cg_draft_template } := rfl
  refine ⟨?_, ?_, ?_, by decide⟩ <;> simp only [extract, hlink, hlook] <;>
    rw [if_pos trivial] <;> simp [List.mem_append, Option.getD]

/-- Witness for C5 at a concrete document. -/
theorem cg_draft_resources_witness :
    ((Doc.mk [] [] [some "https://www.w3.org/StyleSheets/TR/2016/W3C-CG-DRAFT"] [] false
      ).link_stylesheet_href.findIdx? is_w3c_css_link = some 0) ∧
    (watermark_ref ∈ (extract
        (Doc.mk [] [] [some "https://www.w3.org/StyleSheets/TR/2016/W3C-CG-DRAFT"] [] false)
        "CG-DRAFT").2 ∧
      ({ relative_url := "StyleSheets/TR/2016/logos/back-cg-draft.png",
         media_type := "image/png",
         absolute_url := some "https://www.w3.org/StyleSheets/TR/2016/logos/back-cg-draft.png" }
         : ResourceRef) ∈ (extract
        (Doc.mk [] [] [some "https://www.w3.org/StyleSheets/TR/2016/W3C-CG-DRAFT"] [] false)
        "CG-DRAFT").2 ∧
      ({ relative_url := "StyleSheets/TR/2016/epub.css", media_type := "text/css",
         text_content := some (js_replace cg_draft_template "%%%LOGO%%%" "back-cg-draft.png") }
         : ResourceRef) ∈ (extract
        (Doc.mk [] [] [some "https://www.w3.org/StyleSheets/TR/2016/W3C-CG-DRAFT"] [] false)
        "CG-DRAFT").2 ∧
      str_occurs "padding-left: 160px"
        (js_replace cg_draft_template "%%%LOGO%%%" "back-cg-draft.png") = true) :=
  ⟨by decide,
   cg_draft_resources
     (Doc.mk [] [] [some "https://www.w3.org/StyleSheets/TR/2016/W3C-CG-DRAFT"] [] false)
     0 (by decide)⟩

/-- C10: for the statuses whose mapping entry requires a watermark
(`UNOFFICIAL` and `CG-DRAFT`, up to case normalization), the registered
watermark resource has relative path
`StyleSheets/TR/2016/logos/UD-watermark.png` but its absolute fetch URL is
`https://www.w3.org/StyleSheets/TR/2016/logos/$UD-watermark.png` — with a
literal `$` — so the URL handed to the fetch collaborator differs from the
canonical location implied by the relative path. -/
theorem watermark_fetch_url_mismatch (doc : Doc) (s : String) (i : Nat)
    (hlink : doc.link_stylesheet_href.findIdx? is_w3c_css_link = some i)
    (hs : js_toUpperCase s = "UNOFFICIAL" ∨ js_toUpperCase s = "CG-DRAFT") :
    watermark_ref ∈ (extract doc s).2 ∧
    watermark_ref.relative_url = "StyleSheets/TR/2016/logos/UD-watermark.png" ∧
    watermark_ref.absolute_url
      = some "https://www.w3.org/StyleSheets/TR/2016/logos/$UD-watermark.png" ∧
    watermark_ref.absolute_url
      ≠ some ("https://www.w3.org/" ++ watermark_ref.relative_url) := by
  refine ⟨?_, rfl, rfl, by decide⟩
  rcases hs with h | h
  · have hlook : lookup_css_extras s =
        some { watermark := true, logo_name := "UD.png",
               logo_media_type := some "image/png",
               special_template := some undefined_template } := by
      have hg : specStatus_css_get "UNOFFICIAL" =
          some { watermark := true, logo_name := "UD.png",
                 logo_media_type := some "image/png",
                 special_template := some undefined_template } := rfl
      rw [lookup_css_extras, h, hg]
    simp only [extract, hlink, hlook]
    rw [if_pos trivial]
    simp [List.mem_append]
  · have hlook : lookup_css_extras s =
        some { watermark := true, logo_name := "back-cg-draft.png",
               logo_media_type := some "image/png",
               special_template := some cg_draft_template } := by
      have hg : specStatus_css_get "CG-DRAFT" =
          some { watermark := true, logo_name := "back-cg-draft.png",
                 logo_media_type := some "image/png",
                 special_template := some cg_draft_template } := rfl
      rw [lookup_css_extras, h, hg]
    simp only [extract, hlink, hlook]
    rw [if_pos trivial]
    simp [List.mem_append]

/-- Witness for C10 with the lower-cased status `"unofficial"`. -/
theorem watermark_fetch_url_mismatch_witness :
    ((Doc.mk [] [] [some "https://www.w3.org/StyleSheets/TR/2016/W3C-UCR"] [] false
      ).link_stylesheet_href.findIdx? is_w3c_css_link = some 0) ∧
    (js_toUpperCase "unofficial" = "UNOFFICIAL" ∨ js_toUpperCase "unofficial" = "CG-DRAFT") ∧
    (watermark_ref ∈ (extract
        (Doc.mk [] [] [some "https://www.w3.org/StyleSheets/TR/2016/W3C-UCR"] [] false)
        "unofficial").2 ∧
      watermark_ref.relative_url = "StyleSheets/TR/2016/logos/UD-watermark.png" ∧
      watermark_ref.absolute_url
        = some "https://www.w3.org/StyleSheets/TR/2016/logos/$UD-watermark.png" ∧
      watermark_ref.absolute_url
        ≠ some ("https://www.w3.org/" ++ watermark_ref.relative_url)) :=
  ⟨by decide, Or.inl (by decide),
   watermark_fetch_url_mismatch
     (Doc.mk [] [] [some "https://www.w3.org/StyleSheets/TR/2016/W3C-UCR"] [] false)
     "unofficial" 0 (by decide) (Or.inl (by decide))⟩

/-- C6: fail-fast.  If any single media-type lookup of the collector fails
(all failing lookups carrying the error `e`), the collector returns that
error and no `ResourceRef` list; if any single resource-byte fetch at
container-write time fails (all failing fetches carrying `e₂`), the
container writer returns that error and no (partial) container.  In both
phases the issued operations are exactly a permutation of the request
list: every pending lookup/fetch is launched once and none is retried. -/
theorem fail_fast (doc : Doc) (durl : String) (oracle : String → Except String String)
    (sched : List Nat) (e : String)
    (hperm : sched.Perm (List.range (absolute_urls doc durl).length))
    (hex : ∃ u ∈ absolute_urls doc durl, oracle u = .error e)
    (hall : ∀ u ∈ absolute_urls doc durl, oracle u = .error e ∨ ∃ b, oracle u = .ok b)
    (package : PackageWrapper) (overview : String) (resources : List ResourceRef)
    (name : String) (fetch_oracle : String → Except String String)
    (sched₂ : List Nat) (e₂ : String)
    (hperm₂ : sched₂.Perm (List.range (fetch_urls resources).length))
    (hex₂ : ∃ u ∈ fetch_urls resources, fetch_oracle u = .error e₂)
    (hall₂ : ∀ u ∈ fetch_urls resources,
      fetch_oracle u = .error e₂ ∨ ∃ b, fetch_oracle u = .ok b) :
    get_extra_resources doc durl oracle sched = .error e ∧
    (issued (absolute_urls doc durl) sched).Perm (absolute_urls doc durl) ∧
    generate_epub package overview resources name fetch_oracle sched₂ = .error e₂ ∧
    (issued (fetch_urls resources) sched₂).Perm (fetch_urls resources) := by
  refine ⟨?_, issued_perm _ _ hperm, ?_, issued_perm _ _ hperm₂⟩
  · rw [get_extra_resources]
    rw [promiseAll_error oracle _ sched e hperm hex hall]
  · rw [generate_epub]
    have hfu : (resources.filter (fun r => r.absolute_url.isSome)).map
        (fun r => r.absolute_url.getD "") = fetch_urls resources := rfl
    rw [hfu, promiseAll_error fetch_oracle _ sched₂ e₂ hperm₂ hex₂ hall₂]

/-- Witness for C6: one failing media-type lookup and one failing byte
fetch, each aborting its phase with the failure. -/
theorem fail_fast_witness :
    (([0] : List Nat).Perm (List.range (absolute_urls
      (Doc.mk [some "imgs/a.png"] [] [] [] false) "https://www.w3.org/TR/demo/").length)) ∧
    (([0] : List Nat).Perm (List.range (fetch_urls
      [{ relative_url := "x.css", media_type := "text/css",
         absolute_url := some "https://www.w3.org/x.css" }]).length)) ∧
    (get_extra_resources (Doc.mk [some "imgs/a.png"] [] [] [] false)
        "https://www.w3.org/TR/demo/" (fun _ => .error "boom") [0] = .error "boom" ∧
      (issued (absolute_urls (Doc.mk [some "imgs/a.png"] [] [] [] false)
          "https://www.w3.org/TR/demo/") [0]).Perm
        (absolute_urls (Doc.mk [some "imgs/a.png"] [] [] [] false)
          "https://www.w3.org/TR/demo/") ∧
      generate_epub (PackageWrapper.new "i" "T") "<html/>"
          [{ relative_url := "x.css", media_type := "text/css",
             absolute_url := some "https://www.w3.org/x.css" }]
          "demo.epub" (fun _ => .error "bam") [0] = .error "bam" ∧
      (issued (fetch_urls
          [{ relative_url := "x.css", media_type := "text/css",
             absolute_url := some "https://www.w3.org/x.css" }]) [0]).Perm
        (fetch_urls
          [{ relative_url := "x.css", media_type := "text/css",
             absolute_url := some "https://www.w3.org/x.css" }])) :=
  ⟨by decide, by decide,
   fail_fast (Doc.mk [some "imgs/a.png"] [] [] [] false) "https://www.w3.org/TR/demo/"
     (fun _ => .error "boom") [0] "boom" (by decide) (by decide)
     (fun u _ => Or.inl rfl)
     (PackageWrapper.new "i" "T") "<html/>"
     [{ relative_url := "x.css", media_type := "text/css",
        absolute_url := some "https://www.w3.org/x.css" }]
     "demo.epub" (fun _ => .error "bam") [0] "bam" (by decide) (by decide)
     (fun u _ => Or.inl rfl)⟩

/-- The maximum property behind C8, for the `reduce` itself: for a
non-empty date list it returns a list element that no element exceeds. -/
theorem reduce_max_date_spec (dates : List String) (hne : dates ≠ []) :
    ∃ m, reduce_max_date dates = .ok m ∧ m ∈ dates ∧ ∀ d ∈ dates, js_lt m d = false := by
  cases dates with
  | nil => exact absurd rfl hne
  | cons d rest => exact ⟨_, rfl, (foldl_js_max d rest).1, (foldl_js_max d rest).2⟩

/-- C8: for every non-empty chapter list whose initializations all succeed,
the merged book's date is the maximum of the chapters' dates — a chapter
date that all chapter dates compare less-or-equal to under the JavaScript
string comparison the code uses — regardless of the per-chapter completion
schedule. -/
theorem book_date_is_max {γ : Type} (title name : String) (chapter_data : List γ)
    (init_oracle : γ → Except String Chapter) (f : γ → Chapter) (sched : List Nat)
    (hne : chapter_data ≠ [])
    (hperm : sched.Perm (List.range chapter_data.length))
    (hf : ∀ x ∈ chapter_data, init_oracle x = .ok (f x)) :
    ∃ book, generate_book_data title name chapter_data init_oracle sched = .ok book ∧
      book.date ∈ chapter_data.map (fun x => (f x).date) ∧
      ∀ d ∈ chapter_data.map (fun x => (f x).date), js_lt book.date d = false := by
  have hdates : ((chapter_data.map f).map (fun c => c.date))
      = chapter_data.map (fun x => (f x).date) := by
    rw [List.map_map]; rfl
  have hdne : (chapter_data.map f).map (fun c => c.date) ≠ [] := by
    rw [hdates]
    intro hc
    exact hne (List.map_eq_nil.1 hc)
  obtain ⟨m, hm, hmem, hub⟩ := reduce_max_date_spec _ hdne
  simp only [generate_book_data,
    promiseAll_ok init_oracle f chapter_data sched hperm hf, hm]
  refine ⟨_, rfl, ?_, ?_⟩
  · rw [← hdates]; exact hmem
  · intro d hd
    exact hub d (by rw [hdates]; exact hd)

/-- Witness for C8: a two-chapter collection dated 2021-01-01 and
2021-06-01, completing out of order, merges to the date 2021-06-01. -/
theorem book_date_is_max_witness :
    (([0, 1] : List Nat) ≠ []) ∧
    (([1, 0] : List Nat).Perm (List.range ([0, 1] : List Nat).length)) ∧
    generate_book_data "Col" "col" ([0, 1] : List Nat)
      (fun i => .ok (if i = 0 then Chapter.mk ["E1"] "2021-01-01"
                     else Chapter.mk ["E2"] "2021-06-01")) [1, 0] =
      .ok (Book.mk "Col" "col" ["E1", "E2"] "2021-06-01"
        [Chapter.mk ["E1"] "2021-01-01", Chapter.mk ["E2"] "2021-06-01"]) ∧
    (∃ book, generate_book_data "Col" "col" ([0, 1] : List Nat)
        (fun i => .ok (if i = 0 then Chapter.mk ["E1"] "2021-01-01"
                       else Chapter.mk ["E2"] "2021-06-01")) [1, 0] = .ok book ∧
      book.date ∈ ([0, 1] : List Nat).map (fun i =>
        ((if i = 0 then Chapter.mk ["E1"] "2021-01-01"
          else Chapter.mk ["E2"] "2021-06-01")).date) ∧
      ∀ d ∈ ([0, 1] : List Nat).map (fun i =>
        ((if i = 0 then Chapter.mk ["E1"] "2021-01-01"
          else Chapter.mk ["E2"] "2021-06-01")).date), js_lt book.date d = false) :=
  ⟨by decide, by decide, by decide,
   book_date_is_max "Col" "col" ([0, 1] : List Nat)
     (fun i => .ok (if i = 0 then Chapter.mk ["E1"] "2021-01-01"
                    else Chapter.mk ["E2"] "2021-06-01"))
     (fun i => if i = 0 then Chapter.mk ["E1"] "2021-01-01"
               else Chapter.mk ["E2"] "2021-06-01")
     [1, 0] (by decide) (by decide) (fun x _ => rfl)⟩

/-- The rejection cases of `check_Web_url`: a scheme other than http(s) (or
none), a failed `valid-url` check, or an explicit port whose number parses
and is at most 1024, each produce an error. -/
theorem check_Web_url_rejects (isWebUri : String → Option String) (address : String)
    (h : (url_protocol address ≠ some "http:" ∧ url_protocol address ≠ some "https:") ∨
         isWebUri address = none ∨
         (∃ port n, url_port address = some port ∧ js_port_number port = some n ∧ n ≤ 1024)) :
    ∃ e, check_Web_url isWebUri address = .error e := by
  cases hp : url_protocol address with
  | none =>
    simp only [check_Web_url, hp]
    exact ⟨_, rfl⟩
  | some p =>
    simp only [check_Web_url, hp]
    by_cases hhttp : p = "http:" ∨ p = "https:"
    · rw [if_pos hhttp]
      rcases h with ⟨h1, h2⟩ | hw | ⟨port, n, hport, hn, hle⟩
      · rcases hhttp with rfl | rfl
        · exact absurd hp h1
        · exact absurd hp h2
      · simp only [hw]
        exact ⟨_, rfl⟩
      · cases hwv : isWebUri address with
        | none =>
          simp only [hwv]
          exact ⟨_, rfl⟩
        | some retval =>
          simp only [hwv, hport, hn]
          rw [if_pos hle]
          exact ⟨_, rfl⟩
    · rw [if_neg hhttp]
      exact ⟨_, rfl⟩

/-- C9: for every address whose parsed scheme is neither http nor https,
or which fails the URL validity check, or whose explicit port number is at
most 1024, both `fetch_resource` and `fetch_type` fail — the promise
rejects — and no network request is issued for that address. -/
theorem unsafe_address_rejected_without_request (isWebUri : String → Option String)
    (net : String → Except String FetchResponse) (address : String) (force_text : Bool)
    (h : (url_protocol address ≠ some "http:" ∧ url_protocol address ≠ some "https:") ∨
         isWebUri address = none ∨
         (∃ port n, url_port address = some port ∧ js_port_number port = some n ∧ n ≤ 1024)) :
    (∃ e, (fetch_resource isWebUri net address force_text).1 = .error e) ∧
    (fetch_resource isWebUri net address force_text).2 = [] ∧
    (∃ e, (fetch_type isWebUri net address).1 = .error e) ∧
    (fetch_type isWebUri net address).2 = [] := by
  obtain ⟨e, he⟩ := check_Web_url_rejects isWebUri address h
  refine ⟨⟨e, ?_⟩, ?_, ⟨e, ?_⟩, ?_⟩
  · simp only [fetch_resource, he]
  · simp only [fetch_resource, he]
  · simp only [fetch_type, he]
  · simp only [fetch_type, he]

/-- Witness for C9: an `ftp:` address is rejected with no network
request. -/
theorem unsafe_address_rejected_witness :
    ((url_protocol "ftp://example.org/data" ≠ some "http:" ∧
      url_protocol "ftp://example.org/data" ≠ some "https:") ∨
     (fun s => some s) "ftp://example.org/data" = none ∨
     (∃ port n, url_port "ftp://example.org/data" = some port ∧
        js_port_number port = some n ∧ n ≤ 1024)) ∧
    ((∃ e, (fetch_resource (fun s => some s)
        (fun _ => .ok (FetchResponse.mk true 200 "OK" (some "text/html") "x"))
        "ftp://example.org/data" false).1 = .error e) ∧
      (fetch_resource (fun s => some s)
        (fun _ => .ok (FetchResponse.mk true 200 "OK" (some "text/html") "x"))
        "ftp://example.org/data" false).2 = [] ∧
      (∃ e, (fetch_type (fun s => some s)
        (fun _ => .ok (FetchResponse.mk true 200 "OK" (some "text/html") "x"))
        "ftp://example.org/data").1 = .error e) ∧
      (fetch_type (fun s => some s)
        (fun _ => .ok (FetchResponse.mk true 200 "OK" (some "text/html") "x"))
        "ftp://example.org/data").2 = []) :=
  ⟨Or.inl (by decide),
   unsafe_address_rejected_without_request (fun s => some s)
     (fun _ => .ok (FetchResponse.mk true 200 "OK" (some "text/html") "x"))
     "ftp://example.org/data" false (Or.inl (by decide))⟩
